import Mathlib

/-!
Shallow embedding of the quota-management and channel-scoring logic of the
high-ticket-podcast-finder backend (src/backend/quota_manager.py and
src/backend/main.py).

Modelling conventions:
- Python ints become `ℤ`; Python floats (timestamps, scores) become `ℚ`.
- Wall-clock reads (`time.time()`, `datetime.now().strftime("%Y-%m-%d")`,
  `_get_next_quota_reset()`) become explicit parameters `now : ℚ`,
  `today : String`, `next_reset : ℚ` of each operation.
- Methods mutating `self.usage` become functions returning the new state.
- The human-readable reason strings of `can_make_request` are modelled by the
  inductive `Reason`, whose `quotaExceeded` constructor carries the exact
  wait-hours number interpolated into the f-string (before its 1-decimal
  display rounding).
- File persistence (`_save_usage` / `_load_usage`) is modelled by its data
  content: `json.dump(asdict(usage))` becomes an association list of
  key/JSON-value pairs, and `QuotaUsage(**data)` becomes a fallible decoder.
-/

/-- Embedding of the `QuotaUsage` dataclass of quota_manager.py. -/
structure QuotaUsage where
  daily_quota : ℤ
  daily_used : ℤ
  last_reset_date : String
  requests_today : ℤ
  errors_403 : ℤ
  last_request_time : ℚ
  quota_reset_time : ℚ
deriving DecidableEq, Repr

/-- Outcome message of `can_make_request`, modelling the three literal strings
of the source; `quotaExceeded` carries the hours figure
`(quota_reset_time - time.time()) / 3600` interpolated into the message. -/
inductive Reason where
  | quotaExceeded (wait_hours : ℚ)
  | rateLimited
  | requestAllowed
deriving DecidableEq, Repr

/-- Embedding of `QuotaManager._check_daily_reset`: if the stored
`last_reset_date` differs from today's date, zero the daily counters, stamp
today, and recompute the next reset time (the `_save_usage` side effect is
I/O and carries no further state). -/
def check_daily_reset (today : String) (next_reset : ℚ) (s : QuotaUsage) : QuotaUsage :=
  if s.last_reset_date ≠ today then
    { s with daily_used := 0, requests_today := 0, errors_403 := 0,
             last_reset_date := today, quota_reset_time := next_reset }
  else s

/-- Embedding of `QuotaManager.can_make_request`: refresh the day, then deny
on projected quota overrun (reporting wait hours until reset), then deny on
the 100 ms local rate limit, else allow. Returns the (possibly reset) state
together with the decision. -/
def can_make_request (today : String) (next_reset now : ℚ) (estimated_cost : ℤ)
    (s : QuotaUsage) : QuotaUsage × Bool × Reason :=
  let u := check_daily_reset today next_reset s
  if u.daily_used + estimated_cost > u.daily_quota then
    (u, false, Reason.quotaExceeded ((u.quota_reset_time - now) / 3600))
  else if now - u.last_request_time < 1/10 then
    (u, false, Reason.rateLimited)
  else
    (u, true, Reason.requestAllowed)

/-- Embedding of `QuotaManager.record_request`: add the cost, bump the request
counter, stamp the request time, and count 403 errors. Note the source does
not call `_check_daily_reset` here. -/
def record_request (now : ℚ) (cost status_code : ℤ) (s : QuotaUsage) : QuotaUsage :=
  let s1 := { s with daily_used := s.daily_used + cost,
                     requests_today := s.requests_today + 1,
                     last_request_time := now }
  if status_code = 403 then { s1 with errors_403 := s1.errors_403 + 1 } else s1

/-- Status report returned by `QuotaManager.get_quota_status`. -/
structure QuotaStatus where
  daily_quota : ℤ
  daily_used : ℤ
  remaining : ℤ
  remaining_percent : ℚ
  requests_today : ℤ
  errors_403 : ℤ
  resets_in_hours : ℚ
  last_reset_date : String
deriving DecidableEq, Repr

/-- Embedding of `QuotaManager.get_quota_status`: refresh the day, then report
the counters of the refreshed state. -/
def get_quota_status (today : String) (next_reset now : ℚ) (s : QuotaUsage) :
    QuotaUsage × QuotaStatus :=
  let u := check_daily_reset today next_reset s
  (u, { daily_quota := u.daily_quota
        daily_used := u.daily_used
        remaining := u.daily_quota - u.daily_used
        remaining_percent := (((u.daily_quota : ℚ) - (u.daily_used : ℚ)) / (u.daily_quota : ℚ)) * 100
        requests_today := u.requests_today
        errors_403 := u.errors_403
        resets_in_hours := max 0 ((u.quota_reset_time - now) / 3600)
        last_reset_date := u.last_reset_date })

/-- Embedding of `QuotaManager.should_use_fallback`: fallback once remaining
percentage drops under 10, or three 403 errors accumulated, or the budget is
spent. Reads the state as-is (no daily refresh in the source). -/
def should_use_fallback (s : QuotaUsage) : Bool :=
  let remaining_percent : ℚ :=
    (((s.daily_quota : ℚ) - (s.daily_used : ℚ)) / (s.daily_quota : ℚ)) * 100
  decide (remaining_percent < 10) || decide (s.errors_403 ≥ 3) ||
    decide (s.daily_used ≥ s.daily_quota)

/-- JSON scalar values occurring in the persisted quota file. -/
inductive JVal where
  | i (n : ℤ)
  | s (v : String)
  | q (v : ℚ)
deriving DecidableEq, Repr

/-- Embedding of `QuotaManager._save_usage`: the file content written by
`json.dump(asdict(self.usage))`, one key per dataclass field. -/
def save_usage (u : QuotaUsage) : List (String × JVal) :=
  [("daily_quota", JVal.i u.daily_quota),
   ("daily_used", JVal.i u.daily_used),
   ("last_reset_date", JVal.s u.last_reset_date),
   ("requests_today", JVal.i u.requests_today),
   ("errors_403", JVal.i u.errors_403),
   ("last_request_time", JVal.q u.last_request_time),
   ("quota_reset_time", JVal.q u.quota_reset_time)]

/-- Integer field extraction from decoded JSON content. -/
def jInt (l : List (String × JVal)) (k : String) : Option ℤ :=
  match l.lookup k with
  | some (JVal.i n) => some n
  | _ => none

/-- String field extraction from decoded JSON content. -/
def jStr (l : List (String × JVal)) (k : String) : Option String :=
  match l.lookup k with
  | some (JVal.s v) => some v
  | _ => none

/-- Numeric (float) field extraction from decoded JSON content. -/
def jNum (l : List (String × JVal)) (k : String) : Option ℚ :=
  match l.lookup k with
  | some (JVal.q v) => some v
  | _ => none

/-- Embedding of the happy path of `QuotaManager._load_usage`: rebuild a
`QuotaUsage` from the parsed file via `QuotaUsage(**data)`; any missing or
ill-typed field makes the construction fail (the source then falls back to
defaults). -/
def load_usage (l : List (String × JVal)) : Option QuotaUsage :=
  match jInt l "daily_quota", jInt l "daily_used", jStr l "last_reset_date",
        jInt l "requests_today", jInt l "errors_403",
        jNum l "last_request_time", jNum l "quota_reset_time" with
  | some dq, some du, some lrd, some rt, some e4, some lrt, some qrt =>
      some ⟨dq, du, lrd, rt, e4, lrt, qrt⟩
  | _, _, _, _, _, _, _ => none

/-- Embedding of the second `NICHE_WEIGHTS` dict of main.py (the later
assignment, the one in scope at `calculate_score`) together with its
`.get(keyword, 0.5)` lookup. -/
def niche_weights_get (k : String) : ℚ :=
  if k = "business podcast" then 1
  else if k = "entrepreneurship podcast" then 9/10
  else if k = "finance podcast" then 4/5
  else if k = "real estate podcast" then 17/20
  else if k = "saas podcast" then 7/10
  else if k = "coaching podcast" then 3/4
  else if k = "marketing podcast" then 4/5
  else 1/2

/-- Subscriber component of `calculate_score`: 30 at or above the maximum, 10
at or below the minimum, otherwise linear interpolation between 10 and 30. -/
def sub_score (min_subs max_subs subscriber_count : ℤ) : ℚ :=
  if subscriber_count ≥ max_subs then 30
  else if subscriber_count ≤ min_subs then 10
  else 10 + 20 * (((subscriber_count : ℚ) - (min_subs : ℚ)) /
                  ((max_subs : ℚ) - (min_subs : ℚ)))

/-- Recency component of `calculate_score`: 30 up to a week, 25 up to a month,
15 up to ninety days, else 5. -/
def recency_score (days_since_upload : ℤ) : ℚ :=
  if days_since_upload ≤ 7 then 30
  else if days_since_upload ≤ 30 then 25
  else if days_since_upload ≤ 90 then 15
  else 5

/-- Embedding of `calculate_score` of main.py: niche weight times 40, plus the
subscriber and recency components, clamped to `[0, 100]`. The
`days_since_last_upload` key may be absent from the channel dict, defaulting
to 365; `max_days` is accepted and unused, as in the source. -/
def calculate_score (subscriber_count : ℤ) (days_since_last_upload : Option ℤ)
    (keyword : String) (min_subs max_subs _max_days : ℤ) : ℚ :=
  let niche_score := niche_weights_get keyword.toLower * 40
  let s_score := sub_score min_subs max_subs subscriber_count
  let r_score := recency_score (days_since_last_upload.getD 365)
  min 100 (max 0 (niche_score + s_score + r_score))

/-! Helper lemmas about the daily reset and the decision functions. -/

/-- The daily refresh never changes the configured budget. -/
lemma check_daily_reset_daily_quota (today : String) (r : ℚ) (s : QuotaUsage) :
    (check_daily_reset today r s).daily_quota = s.daily_quota := by
  unfold check_daily_reset; split <;> rfl

/-- The daily refresh never changes the last request timestamp. -/
lemma check_daily_reset_last_request_time (today : String) (r : ℚ) (s : QuotaUsage) :
    (check_daily_reset today r s).last_request_time = s.last_request_time := by
  unfold check_daily_reset; split <;> rfl

/-- After the daily refresh the used counter is either untouched or zeroed. -/
lemma check_daily_reset_daily_used (today : String) (r : ℚ) (s : QuotaUsage) :
    (check_daily_reset today r s).daily_used = s.daily_used ∨
    (check_daily_reset today r s).daily_used = 0 := by
  unfold check_daily_reset; split
  · exact Or.inr rfl
  · exact Or.inl rfl

/-- After the daily refresh the stored reset date is today. -/
lemma check_daily_reset_today (today : String) (r : ℚ) (s : QuotaUsage) :
    (check_daily_reset today r s).last_reset_date = today := by
  unfold check_daily_reset
  split_ifs with h
  · rfl
  · exact not_not.mp h

/-- The daily refresh is the identity on a state already stamped today. -/
lemma check_daily_reset_stable (today : String) (r : ℚ) (s : QuotaUsage)
    (h : s.last_reset_date = today) : check_daily_reset today r s = s := by
  unfold check_daily_reset
  rw [if_neg (not_not.mpr h)]

/-- Two refreshes under the same date collapse to one, whatever reset
timestamps each call would compute. -/
lemma check_daily_reset_twice (today : String) (r1 r2 : ℚ) (s : QuotaUsage) :
    check_daily_reset today r2 (check_daily_reset today r1 s) =
      check_daily_reset today r1 s :=
  check_daily_reset_stable today r2 _ (check_daily_reset_today today r1 s)

/-- The state returned by `can_make_request` is exactly the refreshed state. -/
lemma can_make_request_fst (today : String) (r now : ℚ) (cost : ℤ) (s : QuotaUsage) :
    (can_make_request today r now cost s).1 = check_daily_reset today r s := by
  simp only [can_make_request]
  split_ifs <;> rfl

/-- Branch equation of the subscriber component at or above the maximum. -/
lemma sub_score_of_ge (mn mx c : ℤ) (h : c ≥ mx) : sub_score mn mx c = 30 := by
  unfold sub_score; rw [if_pos h]

/-- Branch equation of the subscriber component at or below the minimum. -/
lemma sub_score_of_le (mn mx c : ℤ) (h1 : ¬ c ≥ mx) (h2 : c ≤ mn) :
    sub_score mn mx c = 10 := by
  unfold sub_score; rw [if_neg h1, if_pos h2]

/-- Branch equation of the subscriber component strictly between the bounds. -/
lemma sub_score_of_mid (mn mx c : ℤ) (h1 : ¬ c ≥ mx) (h2 : ¬ c ≤ mn) :
    sub_score mn mx c =
      10 + 20 * (((c : ℚ) - (mn : ℚ)) / ((mx : ℚ) - (mn : ℚ))) := by
  unfold sub_score; rw [if_neg h1, if_neg h2]

/-- With a proper interval the subscriber component never exceeds 30. -/
lemma sub_score_le_30 (mn mx c : ℤ) (h : mn < mx) : sub_score mn mx c ≤ 30 := by
  by_cases h1 : c ≥ mx
  · rw [sub_score_of_ge mn mx c h1]
  · by_cases h2 : c ≤ mn
    · rw [sub_score_of_le mn mx c h1 h2]; norm_num
    · rw [sub_score_of_mid mn mx c h1 h2]
      have hd : (0:ℚ) < (mx : ℚ) - (mn : ℚ) := by exact_mod_cast sub_pos.mpr h
      have hcx : (c : ℚ) < (mx : ℚ) := by
        have : c < mx := by omega
        exact_mod_cast this
      have hq : ((c : ℚ) - (mn : ℚ)) / ((mx : ℚ) - (mn : ℚ)) ≤ 1 := by
        rw [div_le_one hd]; linarith
      linarith

/-- With a proper interval the subscriber component is monotone in the
subscriber count. -/
lemma sub_score_mono (mn mx c1 c2 : ℤ) (h : mn < mx) (h12 : c1 ≤ c2) :
    sub_score mn mx c1 ≤ sub_score mn mx c2 := by
  have hd : (0:ℚ) < (mx : ℚ) - (mn : ℚ) := by exact_mod_cast sub_pos.mpr h
  by_cases hb1 : c2 ≥ mx
  · rw [sub_score_of_ge mn mx c2 hb1]
    exact sub_score_le_30 mn mx c1 h
  · by_cases hb2 : c2 ≤ mn
    · have ha1 : ¬ c1 ≥ mx := by omega
      have ha2 : c1 ≤ mn := by omega
      rw [sub_score_of_le mn mx c1 ha1 ha2, sub_score_of_le mn mx c2 hb1 hb2]
    · rw [sub_score_of_mid mn mx c2 hb1 hb2]
      by_cases ha1 : c1 ≥ mx
      · exfalso; omega
      · by_cases ha2 : c1 ≤ mn
        · rw [sub_score_of_le mn mx c1 ha1 ha2]
          have hn : (0:ℚ) ≤ (c2 : ℚ) - (mn : ℚ) := by
            have : (mn : ℚ) < (c2 : ℚ) := by
              have : mn < c2 := by omega
              exact_mod_cast this
            linarith
          have := div_nonneg hn hd.le
          linarith
        · rw [sub_score_of_mid mn mx c1 ha1 ha2]
          have hnum : (c1 : ℚ) - (mn : ℚ) ≤ (c2 : ℚ) - (mn : ℚ) := by
            have : (c1 : ℚ) ≤ (c2 : ℚ) := by exact_mod_cast h12
            linarith
          have hdiv := (div_le_div_iff_of_pos_right hd).mpr hnum
          linarith

/-! Claim theorems. -/

/-- C1: for every store state satisfying the declared invariant
`dailyUsed ≥ 0`, any estimated cost within the remaining budget
(`estimatedCost ≤ dailyQuota - dailyUsed`), issued at least 100 ms
(`1/10` of a second) after the last recorded request, is allowed by
`can_make_request`. -/
theorem can_make_request_allows_in_budget (s : QuotaUsage) (today : String)
    (r now : ℚ) (cost : ℤ)
    (h0 : 0 ≤ s.daily_used)
    (hc : cost ≤ s.daily_quota - s.daily_used)
    (hr : 1/10 ≤ now - s.last_request_time) :
    (can_make_request today r now cost s).2.1 = true := by
  have hq : ¬ (check_daily_reset today r s).daily_used + cost >
      (check_daily_reset today r s).daily_quota := by
    rcases check_daily_reset_daily_used today r s with h | h <;>
      rw [h, check_daily_reset_daily_quota] <;> omega
  have hrate : ¬ now - (check_daily_reset today r s).last_request_time < 1/10 := by
    rw [check_daily_reset_last_request_time]; linarith
  simp only [can_make_request]
  rw [if_neg hq, if_neg hrate]

/-- C1 witness: a concrete in-budget, rate-limit-clear request is allowed. -/
theorem can_make_request_allows_in_budget_w :
    (0:ℤ) ≤ 0 ∧ (100:ℤ) ≤ 10000 - 0 ∧ (1:ℚ)/10 ≤ 1 - 0 ∧
    (can_make_request "2024-01-02" 0 1 100 ⟨10000, 0, "2024-01-02", 0, 0, 0, 0⟩).2.1 = true :=
  ⟨by norm_num, by norm_num, by norm_num,
    can_make_request_allows_in_budget ⟨10000, 0, "2024-01-02", 0, 0, 0, 0⟩
      "2024-01-02" 0 1 100 (by norm_num) (by norm_num) (by norm_num)⟩

/-- C2 counterexample: at a same-day state whose stored `quota_reset_time`
already lies in the past, a request pushing usage over the budget is denied,
but the wait-hours figure in the reason is `(quota_reset_time - now)/3600 = -1`,
which is not positive — refuting the claim that the reason always contains a
positive wait-hours figure. -/
theorem can_make_request_wait_hours_cex :
    ((10000:ℤ) + 100 > 10000) ∧
    can_make_request "2024-01-02" 0 3600 100 ⟨10000, 10000, "2024-01-02", 0, 0, 0, 0⟩ =
      (⟨10000, 10000, "2024-01-02", 0, 0, 0, 0⟩, false, Reason.quotaExceeded (-1)) ∧
    ¬ (0:ℚ) < -1 := by
  refine ⟨by norm_num, ?_, by norm_num⟩
  simp only [can_make_request, check_daily_reset]
  norm_num

/-- C2 (amended): whenever the refreshed usage plus the estimated cost
exceeds the budget, `can_make_request` denies with a reason carrying the
wait-hours figure `(quota_reset_time - now)/3600` of the refreshed state;
that figure is positive whenever `now` precedes the stored reset time. -/
theorem can_make_request_denies_over_quota (s : QuotaUsage) (today : String)
    (r now : ℚ) (cost : ℤ)
    (h : (check_daily_reset today r s).daily_used + cost >
      (check_daily_reset today r s).daily_quota) :
    can_make_request today r now cost s =
      (check_daily_reset today r s, false,
        Reason.quotaExceeded
          (((check_daily_reset today r s).quota_reset_time - now) / 3600)) ∧
    (now < (check_daily_reset today r s).quota_reset_time →
      0 < ((check_daily_reset today r s).quota_reset_time - now) / 3600) := by
  constructor
  · simp only [can_make_request]
    rw [if_pos h]
  · intro hlt
    exact div_pos (sub_pos.mpr hlt) (by norm_num)

/-- C2 witness: a concrete over-budget request with the reset time ahead of
the clock is denied with the expected, positive wait-hours figure. -/
theorem can_make_request_denies_over_quota_w :
    ((check_daily_reset "2024-01-02" 0 ⟨10000, 10000, "2024-01-02", 0, 0, 0, 7200⟩).daily_used + 100 >
      (check_daily_reset "2024-01-02" 0 ⟨10000, 10000, "2024-01-02", 0, 0, 0, 7200⟩).daily_quota) ∧
    (can_make_request "2024-01-02" 0 3600 100 ⟨10000, 10000, "2024-01-02", 0, 0, 0, 7200⟩ =
      (check_daily_reset "2024-01-02" 0 ⟨10000, 10000, "2024-01-02", 0, 0, 0, 7200⟩, false,
        Reason.quotaExceeded
          (((check_daily_reset "2024-01-02" 0 ⟨10000, 10000, "2024-01-02", 0, 0, 0, 7200⟩).quota_reset_time - 3600) / 3600)) ∧
      (3600 < (check_daily_reset "2024-01-02" 0 ⟨10000, 10000, "2024-01-02", 0, 0, 0, 7200⟩).quota_reset_time →
        0 < ((check_daily_reset "2024-01-02" 0 ⟨10000, 10000, "2024-01-02", 0, 0, 0, 7200⟩).quota_reset_time - 3600) / 3600)) := by
  have h : (check_daily_reset "2024-01-02" 0
        (⟨10000, 10000, "2024-01-02", 0, 0, 0, 7200⟩ : QuotaUsage)).daily_used + 100 >
      (check_daily_reset "2024-01-02" 0
        (⟨10000, 10000, "2024-01-02", 0, 0, 0, 7200⟩ : QuotaUsage)).daily_quota := by
    norm_num [check_daily_reset]
  exact ⟨h, can_make_request_denies_over_quota _ "2024-01-02" 0 3600 100 h⟩

/-- C3 counterexample: `should_use_fallback` and `record_request` do not
refresh the day first. At a state carrying three 403 errors from the
previous calendar day, `should_use_fallback` answers true, while on the
refreshed state it answers false — so it observed stale-day counters; and
`record_request` mutates the counters while leaving the stale
`last_reset_date` in place. -/
theorem stale_day_observed_cex :
    should_use_fallback ⟨10000, 0, "2024-01-01", 0, 3, 0, 0⟩ = true ∧
    should_use_fallback
      (check_daily_reset "2024-01-02" 86400 ⟨10000, 0, "2024-01-01", 0, 3, 0, 0⟩) = false ∧
    (record_request 5 100 200 ⟨10000, 0, "2024-01-01", 0, 3, 0, 0⟩).last_reset_date =
      "2024-01-01" := by
  refine ⟨by simp [should_use_fallback], ?_, by simp [record_request]⟩
  simp [should_use_fallback, check_daily_reset]
  norm_num

/-- C3 (amended): only `can_make_request` and `get_quota_status` perform the
daily refresh first — their results are invariant under pre-refreshing and
the state they leave behind is stamped with today — while `record_request`
and `should_use_fallback` act on the store as-is. -/
theorem refresh_first_amended (s : QuotaUsage) (today : String) (r now : ℚ) (cost : ℤ) :
    can_make_request today r now cost (check_daily_reset today r s) =
      can_make_request today r now cost s ∧
    get_quota_status today r now (check_daily_reset today r s) =
      get_quota_status today r now s ∧
    (can_make_request today r now cost s).1.last_reset_date = today ∧
    (get_quota_status today r now s).1.last_reset_date = today := by
  refine ⟨?_, ?_, ?_, ?_⟩
  · simp only [can_make_request, check_daily_reset_twice]
  · simp only [get_quota_status, check_daily_reset_twice]
  · rw [can_make_request_fst]
    exact check_daily_reset_today today r s
  · exact check_daily_reset_today today r s

/-- C4: the daily refresh is idempotent within a calendar day — a second call
under the same current date (with whatever freshly computed reset timestamp)
changes nothing. -/
theorem check_daily_reset_idempotent (s : QuotaUsage) (today : String) (r1 r2 : ℚ) :
    check_daily_reset today r2 (check_daily_reset today r1 s) =
      check_daily_reset today r1 s :=
  check_daily_reset_twice today r1 r2 s

/-- C5: with a proper interval `minSubscribers < maxSubscribers`, the
subscriber component is 10 at the lower bound and 30 at the upper bound, and
the total score is monotone non-decreasing in the subscriber count between
the bounds, all other inputs fixed. -/
theorem sub_score_boundary_and_monotone (mn mx : ℤ) (h : mn < mx) :
    sub_score mn mx mn = 10 ∧ sub_score mn mx mx = 30 ∧
    ∀ (c1 c2 : ℤ) (d : Option ℤ) (kw : String) (md : ℤ),
      mn ≤ c1 → c1 ≤ c2 → c2 ≤ mx →
      calculate_score c1 d kw mn mx md ≤ calculate_score c2 d kw mn mx md := by
  refine ⟨?_, ?_, ?_⟩
  · have h1 : ¬ mn ≥ mx := by omega
    rw [sub_score_of_le mn mx mn h1 le_rfl]
  · exact sub_score_of_ge mn mx mx le_rfl
  · intro c1 c2 d kw md _ h12 _
    have hs := sub_score_mono mn mx c1 c2 h h12
    simp only [calculate_score]
    have hsum : niche_weights_get kw.toLower * 40 + sub_score mn mx c1 +
        recency_score (d.getD 365) ≤
        niche_weights_get kw.toLower * 40 + sub_score mn mx c2 +
        recency_score (d.getD 365) := by linarith
    exact min_le_min le_rfl (max_le_max le_rfl hsum)

/-- C5 witness: concrete boundary values and a concrete monotone step for the
interval `[0, 2]`. -/
theorem sub_score_boundary_and_monotone_w :
    (0:ℤ) < 2 ∧ sub_score 0 2 0 = 10 ∧ sub_score 0 2 2 = 30 ∧
    calculate_score 0 none "x" 0 2 45 ≤ calculate_score 1 none "x" 0 2 45 :=
  ⟨by norm_num, (sub_score_boundary_and_monotone 0 2 (by norm_num)).1,
    (sub_score_boundary_and_monotone 0 2 (by norm_num)).2.1,
    (sub_score_boundary_and_monotone 0 2 (by norm_num)).2.2 0 1 none "x" 45
      (by norm_num) (by norm_num) (by norm_num)⟩

/-- C6: the recency component follows the fixed table — 30 up to 7 days, 25
for 8 to 30 days, 15 for 31 to 90 days, and 5 beyond. -/
theorem recency_score_table (d : ℤ) :
    (d ≤ 7 → recency_score d = 30) ∧
    (8 ≤ d → d ≤ 30 → recency_score d = 25) ∧
    (31 ≤ d → d ≤ 90 → recency_score d = 15) ∧
    (91 ≤ d → recency_score d = 5) := by
  unfold recency_score
  refine ⟨fun h1 => ?_, fun h1 h2 => ?_, fun h1 h2 => ?_, fun h1 => ?_⟩ <;>
    split_ifs <;> first | rfl | (exfalso; omega)

/-- C6 witness: the table evaluated at the six boundary inputs of the claim. -/
theorem recency_score_table_w :
    recency_score 7 = 30 ∧ recency_score 8 = 25 ∧ recency_score 30 = 25 ∧
    recency_score 31 = 15 ∧ recency_score 90 = 15 ∧ recency_score 91 = 5 :=
  ⟨(recency_score_table 7).1 (by norm_num),
   (recency_score_table 8).2.1 (by norm_num) (by norm_num),
   (recency_score_table 30).2.1 (by norm_num) (by norm_num),
   (recency_score_table 31).2.2.1 (by norm_num) (by norm_num),
   (recency_score_table 90).2.2.1 (by norm_num) (by norm_num),
   (recency_score_table 91).2.2.2 (by norm_num)⟩

/-- C7: for every channel input and bounds configuration the score lies in
`[0, 100]` and equals the clamp of the summed niche, subscriber and recency
components. -/
theorem calculate_score_bounded (c : ℤ) (d : Option ℤ) (kw : String) (mn mx md : ℤ) :
    0 ≤ calculate_score c d kw mn mx md ∧ calculate_score c d kw mn mx md ≤ 100 ∧
    calculate_score c d kw mn mx md =
      min 100 (max 0 (niche_weights_get kw.toLower * 40 + sub_score mn mx c +
        recency_score (d.getD 365))) := by
  refine ⟨?_, ?_, rfl⟩
  · simp only [calculate_score]
    exact le_min (by norm_num) (le_max_left 0 _)
  · simp only [calculate_score]
    exact min_le_left _ _

/-- C8: with a positive budget, `should_use_fallback` holds exactly when the
remaining percentage drops under 10, or the 403 count reaches 3, or the
budget is spent; and three 403 errors alone force fallback for any usage. -/
theorem should_use_fallback_iff (s : QuotaUsage) :
    (0 < s.daily_quota →
      (should_use_fallback s = true ↔
        (((s.daily_quota : ℚ) - (s.daily_used : ℚ)) / (s.daily_quota : ℚ)) * 100 < 10 ∨
          3 ≤ s.errors_403 ∨ s.daily_quota ≤ s.daily_used)) ∧
    (s.errors_403 = 3 → should_use_fallback s = true) := by
  constructor
  · intro _
    simp [should_use_fallback]
    tauto
  · intro h
    simp [should_use_fallback, h]

/-- C8 witness: a concrete state with exactly three 403 errors and 100 percent
of the budget remaining still triggers fallback. -/
theorem should_use_fallback_iff_w :
    (0:ℤ) < 10000 ∧
    (should_use_fallback ⟨10000, 0, "2024-01-01", 0, 3, 0, 0⟩ = true ↔
      ((((10000:ℤ) : ℚ) - ((0:ℤ) : ℚ)) / ((10000:ℤ) : ℚ)) * 100 < 10 ∨
        3 ≤ (3:ℤ) ∨ (10000:ℤ) ≤ 0) ∧
    ((3:ℤ) = 3 ∧ should_use_fallback ⟨10000, 0, "2024-01-01", 0, 3, 0, 0⟩ = true) :=
  ⟨by norm_num,
    (should_use_fallback_iff ⟨10000, 0, "2024-01-01", 0, 3, 0, 0⟩).1 (by norm_num),
    by norm_num,
    (should_use_fallback_iff ⟨10000, 0, "2024-01-01", 0, 3, 0, 0⟩).2 (by norm_num)⟩

/-- C9: serializing a `QuotaUsage` record to the persisted file content and
decoding it back yields the record unchanged, for all seven fields. -/
theorem usage_round_trip (u : QuotaUsage) : load_usage (save_usage u) = some u := rfl

/-- C10: the interpolation branch of the subscriber score — the only place
the source divides by `maxSubscribers - minSubscribers` — is reachable only
when the count lies strictly between the bounds, which forces a strictly
positive denominator; and with `subscriberCount = min = max` the component is
30 because the upper branch is checked first. -/
theorem sub_score_division_safe (mn mx c : ℤ) :
    (¬ c ≥ mx → ¬ c ≤ mn →
      (0:ℚ) < (mx : ℚ) - (mn : ℚ) ∧
      sub_score mn mx c =
        10 + 20 * (((c : ℚ) - (mn : ℚ)) / ((mx : ℚ) - (mn : ℚ)))) ∧
    sub_score mn mn mn = 30 := by
  constructor
  · intro h1 h2
    have h : mn < mx := by omega
    exact ⟨by exact_mod_cast sub_pos.mpr h, sub_score_of_mid mn mx c h1 h2⟩
  · exact sub_score_of_ge mn mn mn le_rfl

/-- C10 witness: the interpolation branch at `min = 0 < 1 < 2 = max` has a
positive denominator, and a degenerate `min = max = 5` configuration scores
30 at the shared bound. -/
theorem sub_score_division_safe_w :
    (¬ (1:ℤ) ≥ 2) ∧ (¬ (1:ℤ) ≤ 0) ∧
    ((0:ℚ) < ((2:ℤ) : ℚ) - ((0:ℤ) : ℚ) ∧
      sub_score 0 2 1 =
        10 + 20 * ((((1:ℤ) : ℚ) - ((0:ℤ) : ℚ)) / (((2:ℤ) : ℚ) - ((0:ℤ) : ℚ)))) ∧
    sub_score 5 5 5 = 30 :=
  ⟨by norm_num, by norm_num,
    (sub_score_division_safe 0 2 1).1 (by norm_num) (by norm_num),
    (sub_score_division_safe 5 5 5).2⟩
